import Mathlib

/-!
Verification of the minecraft_dashboard message hub core.

The development shallowly embeds the server's routing and connection
management code:
- `src/computercraft-server/src/utils/messageUtils.ts` (message model:
  `isValidMessage`, `validateMessageType`, `sanitizeMessage`, `createMessage`)
- `src/computercraft-server/src/services/ClientManager.ts` (connection
  registry)
- `src/computercraft-server/src/services/MessageRouter.ts` (router)
- the WebSocket message handler of `src/computercraft-server/src/index.ts`

Runtime JavaScript values carried by messages are modelled by `JValue`;
a message (a JSON-parsed object) is a key/value list `JObject`, key order
being object-literal insertion order.  The ClientManager's `Map` of clients
is modelled by an insertion-ordered list with unique ids.
-/

/-- A JavaScript runtime value as carried in message fields.  `undef` models
the JavaScript `undefined` value (absent-property access); object and array
values are structural here, while JavaScript compares them by reference —
`jsStrictEq` below conservatively treats any object/array comparison as
unequal, which is exact for values arriving in distinct JSON messages. -/
inductive JValue where
  | str : String → JValue
  | num : Int → JValue
  | bool : Bool → JValue
  | null : JValue
  | undef : JValue
  | obj : List (String × JValue) → JValue
  | arr : List JValue → JValue

/-- A JSON-parsed JavaScript object: fields in insertion order. -/
abbrev JObject := List (String × JValue)

/-- Field lookup: `some v` iff the property is present (first occurrence,
keys are unique in any JSON-parsed object). -/
def getField (m : JObject) (k : String) : Option JValue :=
  (m.find? (fun kv => kv.1 == k)).map (fun kv => kv.2)

/-- The JavaScript `'k' in m` test. -/
def hasField (m : JObject) (k : String) : Bool :=
  (getField m k).isSome

/-- JavaScript property access `m.k`: `undefined` when the key is absent. -/
def jsField (m : JObject) (k : String) : JValue :=
  (getField m k).getD JValue.undef

/-- The object spread `{...m, k: v}`: replaces the value in place when the
key is present, appends the key otherwise. -/
def setField (m : JObject) (k : String) (v : JValue) : JObject :=
  if m.any (fun kv => kv.1 == k) then
    m.map (fun kv => if kv.1 == k then (k, v) else kv)
  else
    m ++ [(k, v)]

/-- JavaScript truthiness test (negated): the falsy values among `JValue`. -/
def jsFalsy : Option JValue → Bool
  | none => true
  | some JValue.undef => true
  | some JValue.null => true
  | some (JValue.bool false) => true
  | some (JValue.num 0) => true
  | some (JValue.str "") => true
  | some _ => false

mutual
/-- JavaScript `String(v)` conversion (`ToString`): numbers print in
decimal, arrays join their elements with commas (null/undefined elements
become empty), plain objects print as `[object Object]`. -/
def jsToString : JValue → String
  | JValue.str s => s
  | JValue.num n => toString n
  | JValue.bool b => cond b "true" "false"
  | JValue.null => "null"
  | JValue.undef => "undefined"
  | JValue.obj _ => "[object Object]"
  | JValue.arr xs => String.intercalate "," (jsToStringList xs)

/-- Stringification of array elements for `Array.prototype.toString`. -/
def jsToStringList : List JValue → List String
  | [] => []
  | JValue.null :: vs => "" :: jsToStringList vs
  | JValue.undef :: vs => "" :: jsToStringList vs
  | v :: vs => jsToString v :: jsToStringList vs
end

/-- JavaScript strict equality `===` restricted to the comparisons the
server performs (name lookups): primitive values compare by value; any
comparison involving an object or array is false (reference semantics —
the compared values originate in distinct messages). -/
def jsStrictEq : JValue → JValue → Bool
  | JValue.str a, JValue.str b => a == b
  | JValue.num a, JValue.num b => a == b
  | JValue.bool a, JValue.bool b => a == b
  | JValue.null, JValue.null => true
  | JValue.undef, JValue.undef => true
  | _, _ => false

/-! ## Message model (`src/computercraft-server/src/utils/messageUtils.ts`) -/

/-- `createMessage` from messageUtils.ts: spreads the given fields and fills
`id` and `timestamp` when absent or falsy.  The nondeterministic
`generateMessageId()` and `Date.now()` calls are passed in as the `genId`
and `now` arguments. -/
def createMessage (genId : String) (now : Int) (p : JObject) : JObject :=
  let idv := if jsFalsy (getField p "id") then JValue.str genId else jsField p "id"
  let tsv := if jsFalsy (getField p "timestamp") then JValue.num now else jsField p "timestamp"
  setField (setField p "id" idv) "timestamp" tsv

/-- `isValidMessage` from messageUtils.ts: the four base fields are present
with the correct primitive types. -/
def isValidMessage (m : JObject) : Bool :=
  (match getField m "id" with | some (JValue.str _) => true | _ => false) &&
  (match getField m "timestamp" with | some (JValue.num _) => true | _ => false) &&
  (match getField m "type" with | some (JValue.str _) => true | _ => false) &&
  (match getField m "source" with | some (JValue.str _) => true | _ => false)

/-- `validateMessageType` from messageUtils.ts: a presence-only check of the
kind-specific required fields, switching on `message.type`. -/
def validateMessageType (m : JObject) : Bool :=
  match getField m "type" with
  | some (JValue.str "chat") =>
      hasField m "content" && hasField m "priority"
  | some (JValue.str "command") =>
      hasField m "targetComputer" && hasField m "functionName" && hasField m "parameters"
  | some (JValue.str "api_registration") =>
      hasField m "computerName" && hasField m "computerType" && hasField m "functions"
  | some (JValue.str "status_update") =>
      hasField m "computerName" && hasField m "status"
  | some (JValue.str "command_response") =>
      hasField m "originalCommandId" && hasField m "success"
  | _ => false

/-- `sanitizeMessage` from messageUtils.ts: for `chat` messages the content
is replaced by `String(message.content)` with every `<` and `>` removed
(the regex replace `/[<>]/g`); every other message is returned unchanged. -/
def stripAngles (s : String) : String :=
  String.mk (s.data.filter (fun c => c ≠ '<' && c ≠ '>'))

/-- Whether `message.type === 'chat'`. -/
def isChatType (m : JObject) : Bool :=
  match getField m "type" with
  | some (JValue.str "chat") => true
  | _ => false

def sanitizeMessage (m : JObject) : JObject :=
  if isChatType m then
    setField m "content" (JValue.str (stripAngles (jsToString (jsField m "content"))))
  else m

/-! ## Connection registry (`src/computercraft-server/src/services/ClientManager.ts`) -/

/-- The two client roles of the server (`'dashboard' | 'computercraft'`). -/
inductive ClientType where
  | dashboard : ClientType
  | computercraft : ClientType
deriving DecidableEq, Repr

/-- A `ConnectedClient` record.  The TypeScript interface lives in the
server's own `types/messages.ts`; its fields are those used by
ClientManager.ts and §3 of the design: the generated id, the WebSocket
handle, role, `connectedAt`/`lastPing` timestamps and the registration
metadata (absent until an `api_registration` is processed).  The live
WebSocket handle is abstracted by two booleans: `wsOpen` models
`ws.readyState === WebSocket.OPEN` and `wsSendOk` models whether a write
(`ws.send` / `ws.ping`) on the open socket succeeds rather than throwing.
Registration metadata fields hold the raw runtime values taken from the
envelope, hence `JValue`. -/
structure ConnectedClient where
  id : String
  wsOpen : Bool
  wsSendOk : Bool
  type : ClientType
  connectedAt : Int
  lastPing : Int
  computerName : Option JValue := none
  computerType : Option JValue := none
  registeredFunctions : Option JValue := none

/-- The ClientManager state: its `Map<string, ConnectedClient>` in
insertion order.  A genuine `Map` holds at most one entry per id; key
deletion is therefore modelled by dropping every entry with that id. -/
structure CM where
  clients : List ConnectedClient

/-- `getClient`: `this.clients.get(clientId)`. -/
def getClient (cm : CM) (cid : String) : Option ConnectedClient :=
  cm.clients.find? (fun c => c.id == cid)

/-- `getClientsByType`. -/
def getClientsByType (cm : CM) (t : ClientType) : List ConnectedClient :=
  cm.clients.filter (fun c => c.type == t)

/-- `getComputerByName`: first client with `type === 'computercraft'` whose
stored `computerName` is strictly equal to the looked-up value. -/
def getComputerByName (cm : CM) (name : JValue) : Option ConnectedClient :=
  cm.clients.find? (fun c =>
    c.type == ClientType.computercraft &&
    (match c.computerName with
     | some v => jsStrictEq v name
     | none => false))

/-- The partial update objects passed to `updateClient` by the code: each
field present in the literal overwrites the record's field
(`Object.assign`). -/
structure ClientUpdate where
  type : Option ClientType := none
  computerName : Option JValue := none
  computerType : Option JValue := none
  registeredFunctions : Option JValue := none

/-- `Object.assign(client, updates)`. -/
def applyUpdate (c : ConnectedClient) (u : ClientUpdate) : ConnectedClient :=
  { c with
    type := u.type.getD c.type
    computerName := (u.computerName.map some).getD c.computerName
    computerType := (u.computerType.map some).getD c.computerType
    registeredFunctions := (u.registeredFunctions.map some).getD c.registeredFunctions }

/-- `updateClient`: merge the update into the record with the given id;
no-op when absent. -/
def updateClient (cm : CM) (cid : String) (u : ClientUpdate) : CM :=
  ⟨cm.clients.map (fun c => if c.id == cid then applyUpdate c u else c)⟩

/-- `removeClient`: `Map.delete` on the id (idempotent, no-op if absent). -/
def removeClient (cm : CM) (cid : String) : CM :=
  ⟨cm.clients.filter (fun c => !(c.id == cid))⟩

/-- `PING_INTERVAL` (milliseconds). -/
def PING_INTERVAL : Int := 30000

/-- The effective last-ping timestamp: `client.lastPing || client.connectedAt`
(a zero/unset `lastPing` falls back to `connectedAt`). -/
def effectiveLastPing (c : ConnectedClient) : Int :=
  if c.lastPing = 0 then c.connectedAt else c.lastPing

/-- `isClientAlive`: the record exists and strictly fewer than
`PING_INTERVAL * 3` milliseconds elapsed since its effective last ping. -/
def isClientAlive (cm : CM) (now : Int) (cid : String) : Bool :=
  match getClient cm cid with
  | none => false
  | some c => decide (now - effectiveLastPing c < PING_INTERVAL * 3)

/-- Result of `sendToClient`: the registry state after the call, the boolean
the function returns, and the deliveries that actually reached a socket. -/
structure SendResult where
  cm : CM
  ok : Bool
  sent : List (String × JObject)

/-- `sendToClient`: false when the record is absent or its socket is not
open; otherwise `ws.send` is attempted and a throw is swallowed into a
false return. -/
def sendToClient (cm : CM) (cid : String) (msg : JObject) : SendResult :=
  match getClient cm cid with
  | none => ⟨cm, false, []⟩
  | some c =>
    if !c.wsOpen then ⟨cm, false, []⟩
    else if c.wsSendOk then ⟨cm, true, [(cid, msg)]⟩
    else ⟨cm, false, []⟩

/-- Result of `broadcastToType`: final state, the returned count, the
deliveries made. -/
structure BroadcastResult where
  cm : CM
  count : Nat
  sent : List (String × JObject)

/-- The `for` loop of `broadcastToType`: one `sendToClient` per snapshot
element, counting successes. -/
def broadcastLoop (msg : JObject) : CM → List ConnectedClient → BroadcastResult
  | cm, [] => ⟨cm, 0, []⟩
  | cm, c :: rest =>
    let r := sendToClient cm c.id msg
    let res := broadcastLoop msg r.cm rest
    ⟨res.cm, (if r.ok then 1 else 0) + res.count, r.sent ++ res.sent⟩

/-- `broadcastToType`: snapshot the clients of the role, send to each. -/
def broadcastToType (cm : CM) (t : ClientType) (msg : JObject) : BroadcastResult :=
  broadcastLoop msg cm (getClientsByType cm t)

/-- The snapshot returned by `getStats`. -/
structure ClientStats where
  totalClients : Nat
  dashboards : Nat
  computers : Nat
  aliveClients : Nat
deriving DecidableEq, Repr

/-- `getStats`. -/
def getStats (cm : CM) (now : Int) : ClientStats :=
  { totalClients := cm.clients.length
    dashboards := (getClientsByType cm ClientType.dashboard).length
    computers := (getClientsByType cm ClientType.computercraft).length
    aliveClients := (cm.clients.filter (fun c => isClientAlive cm now c.id)).length }

/-- `cleanup`: collect every id that is not alive or whose socket is no
longer open, then remove them. -/
def cleanup (cm : CM) (now : Int) : CM :=
  let deadClients :=
    (cm.clients.filter (fun c => !isClientAlive cm now c.id || !c.wsOpen)).map (fun c => c.id)
  deadClients.foldl removeClient cm

/-- One tick of the interval started by `startPingInterval`: `cleanup`
first, then a ping is sent to every still-open client, stamping `lastPing`
at send time (a throwing ping leaves the stamp untouched). -/
def heartbeatTick (cm : CM) (now : Int) : CM :=
  let cm1 := cleanup cm now
  ⟨cm1.clients.map (fun c =>
    if c.wsOpen then
      if c.wsSendOk then { c with lastPing := now } else c
    else c)⟩

/-- Abbreviation used in theorem statements: the send path can actually
deliver to this id (record present, socket open, write succeeds) — the
condition under which `sendToClient` returns true. -/
def clientDeliverable (cm : CM) (cid : String) : Bool :=
  match getClient cm cid with
  | none => false
  | some c => c.wsOpen && c.wsSendOk

/-! ## Router (`src/computercraft-server/src/services/MessageRouter.ts`)

Each handler returns the registry state, the deliveries made, and
`some err` when a JavaScript `TypeError` escapes it (the state and
deliveries are then those accumulated up to the throw). -/

/-- Result of `routeMessage`: final registry state, successful deliveries,
and the uncaught exception if one escaped the call. -/
structure RouteResult where
  cm : CM
  sent : List (String × JObject)
  error : Option String

/-- `handleChatMessage`: broadcast the (sanitized) chat to all dashboards. -/
def handleChatMessage (cm : CM) (m : JObject) : RouteResult :=
  let r := broadcastToType cm ClientType.dashboard m
  ⟨r.cm, r.sent, none⟩

/-- `handleCommandMessage`: look up the target by name; not found ⇒ one
synthesized `command_response` to the sender; found ⇒ forward the envelope
verbatim, and on a failed forward synthesize the failure response to the
sender instead. -/
def handleCommandMessage (cm : CM) (m : JObject) (senderClientId : String)
    (genId : String) (now : Int) : RouteResult :=
  match getComputerByName cm (jsField m "targetComputer") with
  | none =>
    let errorResponse := createMessage genId now
      [("type", JValue.str "command_response"),
       ("source", JValue.str "server"),
       ("originalCommandId", jsField m "id"),
       ("success", JValue.bool false),
       ("error", JValue.str
         ("Computer \x27" ++ jsToString (jsField m "targetComputer") ++ "\x27 is not connected"))]
    let r := sendToClient cm senderClientId errorResponse
    ⟨r.cm, r.sent, none⟩
  | some targetClient =>
    let r := sendToClient cm targetClient.id m
    if r.ok then ⟨r.cm, r.sent, none⟩
    else
      let errorResponse := createMessage genId now
        [("type", JValue.str "command_response"),
         ("source", JValue.str "server"),
         ("originalCommandId", jsField m "id"),
         ("success", JValue.bool false),
         ("error", JValue.str
           ("Failed to communicate with computer \x27" ++ jsToString (jsField m "targetComputer") ++ "\x27"))]
      let r2 := sendToClient r.cm senderClientId errorResponse
      ⟨r2.cm, r.sent ++ r2.sent, none⟩

/-- Whether evaluating `message.functions.map(f => f.name)` — the
registration log line — throws once `functions` is an array: the property
access `f.name` raises a `TypeError` on a null or undefined element, while
every other element (object, array, string, number, boolean) yields its
`name` property or undefined without throwing. -/
def functionsMapNameThrows (fs : List JValue) : Bool :=
  fs.any (fun f =>
    match f with
    | JValue.null => true
    | JValue.undef => true
    | _ => false)

/-- The effects of `handleAPIRegistration` past its logging: attach the
registration metadata to the sender's record, broadcast the envelope to
all dashboards, send the welcome chat back to the sender. -/
def registrationEffects (cm : CM) (m : JObject) (senderClientId : String)
    (genId : String) (now : Int) (fs : List JValue) : RouteResult :=
  let cm1 := updateClient cm senderClientId
    { computerName := some (jsField m "computerName")
      computerType := some (jsField m "computerType")
      registeredFunctions := some (JValue.arr fs) }
  let rb := broadcastToType cm1 ClientType.dashboard m
  let welcomeMessage := createMessage genId now
    [("type", JValue.str "chat"),
     ("source", JValue.str "server"),
     ("content", JValue.str
       ("Welcome " ++ jsToString (jsField m "computerName") ++
        "! Registration successful. Functions: " ++ toString fs.length)),
     ("priority", JValue.str "medium"),
     ("category", JValue.str "system")]
  let rw := sendToClient rb.cm senderClientId welcomeMessage
  ⟨rw.cm, rb.sent ++ rw.sent, none⟩

/-- `handleAPIRegistration`: logging first evaluates
`message.functions.map(f => f.name)`, which throws a `TypeError` when
`functions` is not an array and also when the array contains a null or
undefined element — either way before any mutation; otherwise the sender's
record gets the registration metadata, the envelope is broadcast to all
dashboards, and a welcome chat goes back to the sender. -/
def handleAPIRegistration (cm : CM) (m : JObject) (senderClientId : String)
    (genId : String) (now : Int) : RouteResult :=
  match getField m "functions" with
  | some (JValue.arr fs) =>
    if functionsMapNameThrows fs then
      ⟨cm, [], some "TypeError: cannot read properties of null (reading name)"⟩
    else registrationEffects cm m senderClientId genId now fs
  | _ => ⟨cm, [], some "TypeError: message.functions.map is not a function"⟩

/-- `handleStatusUpdate`: logging reads `message.status.currentTask`, which
throws a `TypeError` when `status` is null or undefined; otherwise the
envelope is broadcast to all dashboards. -/
def handleStatusUpdate (cm : CM) (m : JObject) : RouteResult :=
  match getField m "status" with
  | some JValue.null =>
    ⟨cm, [], some "TypeError: cannot read properties of null (reading currentTask)"⟩
  | some JValue.undef =>
    ⟨cm, [], some "TypeError: cannot read properties of undefined (reading currentTask)"⟩
  | none =>
    ⟨cm, [], some "TypeError: cannot read properties of undefined (reading currentTask)"⟩
  | some _ =>
    let r := broadcastToType cm ClientType.dashboard m
    ⟨r.cm, r.sent, none⟩

/-- `handleCommandResponse`: broadcast to all dashboards. -/
def handleCommandResponse (cm : CM) (m : JObject) : RouteResult :=
  let r := broadcastToType cm ClientType.dashboard m
  ⟨r.cm, r.sent, none⟩

/-- `routeMessage`: reject anything failing `validateMessageType`, sanitize,
then dispatch on `message.type`. -/
def routeMessage (cm : CM) (m : JObject) (senderClientId : String)
    (genId : String) (now : Int) : RouteResult :=
  if !validateMessageType m then ⟨cm, [], none⟩
  else
    let sm := sanitizeMessage m
    match getField sm "type" with
    | some (JValue.str "chat") => handleChatMessage cm sm
    | some (JValue.str "command") => handleCommandMessage cm sm senderClientId genId now
    | some (JValue.str "api_registration") => handleAPIRegistration cm sm senderClientId genId now
    | some (JValue.str "status_update") => handleStatusUpdate cm sm
    | some (JValue.str "command_response") => handleCommandResponse cm sm
    | _ => ⟨cm, [], none⟩

/-! ## WebSocket message handling (`src/computercraft-server/src/index.ts`)

The `ws.on('message')` callback, after JSON parsing: drop the frame unless
`isValidMessage` holds, promote the connection to `computercraft` when an
`api_registration` arrives, then call `routeMessage`.  The whole body sits
in a try/catch, so an exception thrown by a handler is swallowed there
(state and deliveries up to the throw stand). -/
def handleWsMessage (cm : CM) (m : JObject) (clientId : String)
    (genId : String) (now : Int) : CM × List (String × JObject) :=
  if !isValidMessage m then (cm, [])
  else
    let cm1 :=
      if (getClient cm clientId).isSome &&
         (match getField m "type" with
          | some (JValue.str "api_registration") => true
          | _ => false) then
        updateClient cm clientId { type := some ClientType.computercraft }
      else cm
    let r := routeMessage cm1 m clientId genId now
    (r.cm, r.sent)

/-- Whether some client other than `cid` is a `computercraft` record
carrying the given `computerName` — the situation in which a
`getComputerByName` lookup could be answered by a different record
(the duplicate-name shadowing of §3/§9 of the design). -/
def otherDeviceNamed (cm : CM) (cid : String) (name : JValue) : Bool :=
  cm.clients.any (fun d =>
    !(d.id == cid) &&
    (d.type == ClientType.computercraft &&
     (match d.computerName with
      | some v => jsStrictEq v name
      | none => false)))

/-! ## Concrete states and messages used as witnesses and counterexamples -/

/-- An open dashboard connection. -/
def dash1 : ConnectedClient :=
  { id := "d1", wsOpen := true, wsSendOk := true, type := ClientType.dashboard
    connectedAt := 0, lastPing := 1 }

/-- A registered device whose socket is no longer open. -/
def turtleClosed : ConnectedClient :=
  { id := "t1", wsOpen := false, wsSendOk := true, type := ClientType.computercraft
    connectedAt := 0, lastPing := 1
    computerName := some (JValue.str "Turtle1")
    computerType := some (JValue.str "turtle")
    registeredFunctions := some (JValue.arr []) }

/-- A registered device with an open, working socket. -/
def turtleOpen : ConnectedClient :=
  { id := "t1", wsOpen := true, wsSendOk := true, type := ClientType.computercraft
    connectedAt := 0, lastPing := 1
    computerName := some (JValue.str "Turtle1")
    computerType := some (JValue.str "turtle")
    registeredFunctions := some (JValue.arr []) }

/-- An open dashboard connection whose last ping is long past. -/
def staleClient : ConnectedClient :=
  { id := "s1", wsOpen := true, wsSendOk := true, type := ClientType.dashboard
    connectedAt := 0, lastPing := 5 }

def cmOneDash : CM := ⟨[dash1]⟩

def cmDashTurtleClosed : CM := ⟨[dash1, turtleClosed]⟩

def cmDashTurtleOpen : CM := ⟨[dash1, turtleOpen]⟩

def cmStale : CM := ⟨[staleClient]⟩

/-- A chat with all kind-specific fields but none of the base fields. -/
def chatNoBase : JObject :=
  [("type", JValue.str "chat"), ("content", JValue.str "hi"), ("priority", JValue.str "low")]

/-- A chat missing its kind-specific required fields. -/
def chatMissingContent : JObject :=
  [("type", JValue.str "chat")]

/-- A well-based chat whose `content` is a number instead of a string. -/
def chatNumContent : JObject :=
  [("id", JValue.str "m4"), ("timestamp", JValue.num 4), ("type", JValue.str "chat"),
   ("source", JValue.str "viewer"), ("content", JValue.num 42), ("priority", JValue.str "low")]

/-- A well-formed chat whose content carries markup angle brackets. -/
def chatAngles : JObject :=
  [("id", JValue.str "m7"), ("timestamp", JValue.num 7), ("type", JValue.str "chat"),
   ("source", JValue.str "viewer"), ("content", JValue.str "<b>hi</b>"),
   ("priority", JValue.str "high")]

/-- A well-formed status_update. -/
def statusMsg : JObject :=
  [("id", JValue.str "m8"), ("timestamp", JValue.num 8), ("type", JValue.str "status_update"),
   ("source", JValue.str "T"), ("computerName", JValue.str "T"),
   ("status", JValue.obj [("isActive", JValue.bool true)])]

/-- An api_registration whose `functions` field is a number, not an array. -/
def regBadFunctions : JObject :=
  [("id", JValue.str "m3"), ("timestamp", JValue.num 3), ("type", JValue.str "api_registration"),
   ("source", JValue.str "T"), ("computerName", JValue.str "T"),
   ("computerType", JValue.str "computer"), ("functions", JValue.num 42)]

/-- An api_registration whose `functions` field is an array containing a
null element (reachable through plain JSON). -/
def regNullFunctions : JObject :=
  [("id", JValue.str "m5"), ("timestamp", JValue.num 5), ("type", JValue.str "api_registration"),
   ("source", JValue.str "T"), ("computerName", JValue.str "T"),
   ("computerType", JValue.str "computer"), ("functions", JValue.arr [JValue.null])]

/-- A well-formed api_registration for a device named Turtle9 with one function. -/
def regGood : JObject :=
  [("id", JValue.str "m2"), ("timestamp", JValue.num 2), ("type", JValue.str "api_registration"),
   ("source", JValue.str "Turtle9"), ("computerName", JValue.str "Turtle9"),
   ("computerType", JValue.str "turtle"),
   ("functions", JValue.arr [JValue.obj [("name", JValue.str "dig")]]),
   ("status", JValue.obj [])]

/-- A well-formed command aimed at a name no device carries. -/
def cmdToMissing : JObject :=
  [("id", JValue.str "c5"), ("timestamp", JValue.num 5), ("type", JValue.str "command"),
   ("source", JValue.str "viewer"), ("targetComputer", JValue.str "Nobody"),
   ("functionName", JValue.str "dig"), ("parameters", JValue.obj [])]

/-- A well-formed command aimed at Turtle1. -/
def cmdToTurtle : JObject :=
  [("id", JValue.str "c6"), ("timestamp", JValue.num 6), ("type", JValue.str "command"),
   ("source", JValue.str "viewer"), ("targetComputer", JValue.str "Turtle1"),
   ("functionName", JValue.str "dig"), ("parameters", JValue.obj [])]

/-- Guard for the unguarded property accesses of `handleAPIRegistration`:
when an `api_registration` envelope carries a `functions` field, that field
is an array whose elements are none of them null or undefined — exactly
the condition under which `message.functions.map(f => f.name)` cannot
throw. -/
def functionsFieldOk (m : JObject) : Bool :=
  match getField m "type", getField m "functions" with
  | some (JValue.str "api_registration"), some (JValue.arr fs) => !functionsMapNameThrows fs
  | some (JValue.str "api_registration"), some _ => false
  | some (JValue.str "api_registration"), none => true
  | _, _ => true

/-- Guard for the one unguarded property access of `handleStatusUpdate`:
when a `status_update` envelope carries a `status` field, that field is not
null or undefined (so `message.status.currentTask` cannot throw). -/
def statusFieldOk (m : JObject) : Bool :=
  match getField m "type", getField m "status" with
  | some (JValue.str "status_update"), some JValue.null => false
  | some (JValue.str "status_update"), some JValue.undef => false
  | _, _ => true

/-! ## Helper lemmas -/

theorem sendToClient_cm (cm : CM) (cid : String) (msg : JObject) :
    (sendToClient cm cid msg).cm = cm := by
  unfold sendToClient
  cases getClient cm cid with
  | none => rfl
  | some c =>
    by_cases h : c.wsOpen <;> by_cases h2 : c.wsSendOk <;> simp [h, h2]

theorem sendToClient_ok (cm : CM) (cid : String) (msg : JObject) :
    (sendToClient cm cid msg).ok = clientDeliverable cm cid := by
  unfold sendToClient clientDeliverable
  cases getClient cm cid with
  | none => rfl
  | some c =>
    by_cases h : c.wsOpen <;> by_cases h2 : c.wsSendOk <;> simp [h, h2]

theorem sendToClient_sent (cm : CM) (cid : String) (msg : JObject) :
    (sendToClient cm cid msg).sent =
      if clientDeliverable cm cid then [(cid, msg)] else [] := by
  unfold sendToClient clientDeliverable
  cases getClient cm cid with
  | none => rfl
  | some c =>
    by_cases h : c.wsOpen <;> by_cases h2 : c.wsSendOk <;> simp [h, h2]

theorem broadcastLoop_cm (msg : JObject) (cs : List ConnectedClient) (cm : CM) :
    (broadcastLoop msg cm cs).cm = cm := by
  induction cs generalizing cm with
  | nil => rfl
  | cons c rest ih =>
    simp only [broadcastLoop, sendToClient_cm, ih]

theorem broadcastLoop_count (msg : JObject) (cs : List ConnectedClient) (cm : CM) :
    (broadcastLoop msg cm cs).count =
      cs.countP (fun c => (sendToClient cm c.id msg).ok) := by
  induction cs generalizing cm with
  | nil => rfl
  | cons c rest ih =>
    simp only [broadcastLoop, sendToClient_cm, ih, List.countP_cons]
    cases h : (sendToClient cm c.id msg).ok <;> simp [h, Nat.add_comm]

theorem broadcastLoop_sent (msg : JObject) (cs : List ConnectedClient) (cm : CM) :
    (broadcastLoop msg cm cs).sent =
      cs.filterMap (fun c =>
        if (sendToClient cm c.id msg).ok then some (c.id, msg) else none) := by
  induction cs generalizing cm with
  | nil => rfl
  | cons c rest ih =>
    simp only [broadcastLoop, sendToClient_cm, ih, List.filterMap_cons]
    rw [sendToClient_sent, sendToClient_ok]
    cases h : clientDeliverable cm c.id <;> simp [h]

theorem broadcastToType_cm (cm : CM) (t : ClientType) (msg : JObject) :
    (broadcastToType cm t msg).cm = cm :=
  broadcastLoop_cm msg _ cm

theorem find?_map_setField_self (k : String) (v : JValue) (m : JObject)
    (h : m.any (fun kv => kv.1 == k) = true) :
    (m.map (fun kv => if kv.1 == k then (k, v) else kv)).find?
      (fun kv => kv.1 == k) = some (k, v) := by
  induction m with
  | nil => simp at h
  | cons kv rest ih =>
    by_cases hk : (kv.1 == k) = true
    · simp only [List.map_cons, if_pos hk]
      exact List.find?_cons_of_pos _ (by simp)
    · simp only [List.any_cons, hk, Bool.false_or] at h
      simp only [List.map_cons, if_neg hk]
      rw [List.find?_cons_of_neg _ (by simp [hk])]
      exact ih h

theorem find?_append_setField_self (k : String) (v : JValue) (m : JObject)
    (h : m.any (fun kv => kv.1 == k) = false) :
    (m ++ [(k, v)]).find? (fun kv => kv.1 == k) = some (k, v) := by
  induction m with
  | nil => simp
  | cons kv rest ih =>
    simp only [List.any_cons, Bool.or_eq_false_iff] at h
    simp only [List.cons_append]
    rw [List.find?_cons_of_neg _ (by simp [h.1])]
    exact ih h.2

/-- After `{...m, k: v}` reading `k` yields `v`. -/
theorem getField_setField_self (m : JObject) (k : String) (v : JValue) :
    getField (setField m k v) k = some v := by
  unfold setField getField
  by_cases h : m.any (fun kv => kv.1 == k) = true
  · rw [if_pos h, find?_map_setField_self k v m h]
    rfl
  · have h' : m.any (fun kv => kv.1 == k) = false := by
      revert h; cases m.any (fun kv => kv.1 == k) <;> simp
    rw [if_neg h, find?_append_setField_self k v m h']
    rfl

theorem find?_map_setField_ne (k k' : String) (v : JValue) (m : JObject)
    (hne : k' ≠ k) :
    (m.map (fun kv => if kv.1 == k then (k, v) else kv)).find?
      (fun kv => kv.1 == k') = m.find? (fun kv => kv.1 == k') := by
  induction m with
  | nil => rfl
  | cons kv rest ih =>
    by_cases hk : (kv.1 == k) = true
    · have hkeq : kv.1 = k := by simpa using hk
      simp only [List.map_cons, if_pos hk]
      rw [List.find?_cons_of_neg _ (by simp; exact fun hc => hne hc.symm),
          List.find?_cons_of_neg _ (by simp [hkeq]; exact fun hc => hne hc.symm)]
      exact ih
    · simp only [List.map_cons, if_neg hk]
      by_cases hq : (kv.1 == k') = true
      · simp only [List.find?_cons, hq]
      · have hq' : (kv.1 == k') = false := by
          revert hq; cases kv.1 == k' <;> simp
        simp only [List.find?_cons, hq']
        exact ih

/-- `{...m, k: v}` leaves every other key unchanged. -/
theorem getField_setField_ne (m : JObject) (k k' : String) (v : JValue)
    (hne : k' ≠ k) :
    getField (setField m k v) k' = getField m k' := by
  unfold setField getField
  by_cases h : m.any (fun kv => kv.1 == k) = true
  · rw [if_pos h, find?_map_setField_ne k k' v m hne]
  · rw [if_neg h, List.find?_append]
    have h1 : (List.find? (fun kv => kv.1 == k') [((k, v) : String × JValue)]) = none := by
      rw [List.find?_cons_of_neg _ (by simp; exact fun hc => hne hc.symm)]
      rfl
    rw [h1]
    cases hm : m.find? (fun kv => kv.1 == k') <;> rfl

theorem length_filter_lt_of_mem {α : Type} {p : α → Bool} {l : List α} {x : α}
    (hx : x ∈ l) (hpx : p x = false) : (l.filter p).length < l.length := by
  induction l with
  | nil => cases hx
  | cons a rest ih =>
    rcases List.mem_cons.mp hx with h | h
    · subst h
      simp only [List.filter_cons, hpx]
      exact Nat.lt_succ_of_le (List.length_filter_le p rest)
    · simp only [List.filter_cons]
      cases hpa : p a
      · exact Nat.lt_succ_of_lt (ih h)
      · simpa using Nat.succ_lt_succ (ih h)

theorem mem_foldl_removeClient {ids : List String} {cm : CM} {c : ConnectedClient}
    (h : c ∈ (ids.foldl removeClient cm).clients) : c ∈ cm.clients := by
  induction ids generalizing cm with
  | nil => exact h
  | cons i rest ih =>
    have h2 : c ∈ (removeClient cm i).clients := ih h
    exact List.mem_of_mem_filter h2

theorem foldl_removeClient_not_mem {ids : List String} {cm : CM} {cid : String}
    (h : cid ∈ ids) :
    ∀ c ∈ (ids.foldl removeClient cm).clients, (c.id == cid) = false := by
  induction ids generalizing cm with
  | nil => cases h
  | cons i rest ih =>
    intro c hc
    rcases List.mem_cons.mp h with rfl | hrest
    · by_cases hmem : cid ∈ rest
      · exact ih hmem c hc
      · have hc' : c ∈ (removeClient cm cid).clients :=
          mem_foldl_removeClient hc
        have := List.of_mem_filter hc'
        revert this
        cases hcc : c.id == cid <;> simp
    · exact ih hrest c hc

theorem getClient_foldl_removeClient {ids : List String} {cm : CM} {cid : String}
    (h : cid ∈ ids) : getClient (ids.foldl removeClient cm) cid = none := by
  unfold getClient
  rw [List.find?_eq_none]
  intro c hc
  have := foldl_removeClient_not_mem h c hc
  simp [this]

/-- `sanitizeMessage` only ever touches the `content` field. -/
theorem getField_sanitizeMessage_ne (m : JObject) (k : String) (hk : k ≠ "content") :
    getField (sanitizeMessage m) k = getField m k := by
  unfold sanitizeMessage
  by_cases h : isChatType m = true
  · rw [if_pos h, getField_setField_ne m "content" k _ hk]
  · rw [if_neg h]

/-- Unfolding of `handleAPIRegistration` once `functions` is known to be an
array: the log line's `f => f.name` map either throws or the registration
effects run. -/
theorem handleAPIRegistration_arr (cm : CM) (m : JObject) (s g : String) (n : Int)
    (fs : List JValue) (h : getField m "functions" = some (JValue.arr fs)) :
    handleAPIRegistration cm m s g n =
      if functionsMapNameThrows fs then
        ⟨cm, [], some "TypeError: cannot read properties of null (reading name)"⟩
      else registrationEffects cm m s g n fs := by
  unfold handleAPIRegistration
  rw [h]

/-! ## Claims -/

/-- C10: `sendToClient` and `broadcastToType` never add, remove, or modify
any registry record — the client map is identical before and after the
call, for every connection id, role and envelope, including every failing
delivery (record absent, socket closed, or a throwing send). -/
theorem C10_send_paths_preserve_registry (cm : CM) (cid : String) (t : ClientType)
    (msg : JObject) :
    (sendToClient cm cid msg).cm = cm ∧ (broadcastToType cm t msg).cm = cm :=
  ⟨sendToClient_cm cm cid msg, broadcastToType_cm cm t msg⟩

/-- C9: `broadcastToType` returns a count equal to the number of the role's
connections whose individual `sendToClient` attempt returns true, and the
deliveries are exactly those to the successful connections among all of the
role's connections — every connection of the role gets its own independent
attempt, so one failure never prevents the rest. -/
theorem C9_broadcast_count_accuracy (cm : CM) (t : ClientType) (msg : JObject) :
    (broadcastToType cm t msg).count =
      (getClientsByType cm t).countP (fun c => (sendToClient cm c.id msg).ok) ∧
    (broadcastToType cm t msg).sent =
      (getClientsByType cm t).filterMap (fun c =>
        if (sendToClient cm c.id msg).ok then some (c.id, msg) else none) :=
  ⟨broadcastLoop_count msg (getClientsByType cm t) cm,
   broadcastLoop_sent msg (getClientsByType cm t) cm⟩

/-- C7: on a chat envelope whose content is the string `s`, sanitization
replaces `content` by `s` with exactly the characters `<` and `>` removed
and changes nothing else (every other field reads the same); an envelope of
any other kind is returned unchanged. -/
theorem C7_sanitization_exact (msg : JObject) :
    (∀ s : String, getField msg "type" = some (JValue.str "chat") →
       getField msg "content" = some (JValue.str s) →
       sanitizeMessage msg = setField msg "content" (JValue.str (stripAngles s)) ∧
       ∀ k, k ≠ "content" → getField (sanitizeMessage msg) k = getField msg k) ∧
    (isChatType msg = false → sanitizeMessage msg = msg) := by
  constructor
  · intro s htype hcontent
    have hchat : isChatType msg = true := by
      unfold isChatType
      rw [htype]
      rfl
    constructor
    · unfold sanitizeMessage
      rw [if_pos hchat]
      unfold jsField
      rw [hcontent]
      rfl
    · intro k hk
      exact getField_sanitizeMessage_ne msg k hk
  · intro h
    unfold sanitizeMessage
    rw [if_neg (by simp [h])]

/-- C7 witness: the chat `"<b>hi</b>"` is sanitized to `"bhi/b"` with all
other fields untouched, and a status_update is left entirely unchanged. -/
theorem C7_sanitization_exact_witness :
    sanitizeMessage chatAngles = setField chatAngles "content" (JValue.str "bhi/b") ∧
    sanitizeMessage statusMsg = statusMsg :=
  ⟨((C7_sanitization_exact chatAngles).1 "<b>hi</b>" rfl rfl).1,
   (C7_sanitization_exact statusMsg).2 rfl⟩

/-- C8: `isClientAlive` returns true iff the time elapsed since the
record's `lastPing` (falling back to `connectedAt` when unset) is strictly
less than three heartbeat periods (3 × 30000 ms); consequently a connection
at least that stale is reported not alive, is excluded from the `getStats`
alive count, and is evicted by the next heartbeat tick — with no condition
on its transport still being open. -/
theorem C8_liveness_policy (cm : CM) (now : Int) (cid : String) (c : ConnectedClient)
    (h : getClient cm cid = some c) :
    (isClientAlive cm now cid = true ↔ now - effectiveLastPing c < PING_INTERVAL * 3) ∧
    (PING_INTERVAL * 3 ≤ now - effectiveLastPing c →
       isClientAlive cm now cid = false ∧
       (getStats cm now).aliveClients < (getStats cm now).totalClients ∧
       getClient (heartbeatTick cm now) cid = none) := by
  have hcid : c.id = cid := by
    have := List.find?_some h
    simpa using this
  have hcmem : c ∈ cm.clients := List.mem_of_find?_eq_some h
  constructor
  · unfold isClientAlive
    rw [h]
    simp
  · intro hstale
    have hdead : isClientAlive cm now cid = false := by
      unfold isClientAlive
      rw [h]
      simp
      omega
    refine ⟨hdead, ?_, ?_⟩
    · have hpc : (fun d => isClientAlive cm now d.id) c = false := by
        simpa [hcid] using hdead
      exact length_filter_lt_of_mem hcmem hpc
    · have h1 : getClient (cleanup cm now) cid = none := by
        unfold cleanup
        apply getClient_foldl_removeClient
        refine List.mem_map.mpr ⟨c, List.mem_filter.mpr ⟨hcmem, ?_⟩, hcid⟩
        rw [hcid, hdead]
        rfl
      unfold heartbeatTick
      unfold getClient at h1 ⊢
      rw [List.find?_eq_none] at h1 ⊢
      intro x hx
      rcases List.mem_map.mp hx with ⟨y, hy, rfl⟩
      have hyne := h1 y hy
      by_cases hyo : y.wsOpen = true <;> by_cases hys : y.wsSendOk = true <;>
        simp [hyo, hys] at hyne ⊢ <;> exact hyne

/-- C8 witness: a dashboard whose socket is open but whose last ping is
99995 ms old is not alive, missing from the alive count, and gone after the
heartbeat tick. -/
theorem C8_liveness_policy_witness :
    staleClient.wsOpen = true ∧
    isClientAlive cmStale 100000 "s1" = false ∧
    (getStats cmStale 100000).aliveClients < (getStats cmStale 100000).totalClients ∧
    getClient (heartbeatTick cmStale 100000) "s1" = none :=
  ⟨rfl, (C8_liveness_policy cmStale 100000 "s1" staleClient rfl).2 (by decide)⟩

/-- C1 (amended): `routeMessage` performs zero registry mutations and zero
deliveries (and raises nothing) on every input whose kind is missing or
unknown or that lacks a kind-specific required field — everything failing
`validateMessageType`.  Base-field validation is not re-done inside
`routeMessage`: it is the connection handler (`isValidMessage` in the
WebSocket message callback) that drops envelopes missing one of
`id, timestamp, type, source` before routing, with zero mutations and
deliveries. -/
theorem C1_amended_rejection_totality (cm : CM) (msg : JObject) (sender genId : String)
    (now : Int) :
    (validateMessageType msg = false →
       routeMessage cm msg sender genId now = ⟨cm, [], none⟩) ∧
    (isValidMessage msg = false →
       handleWsMessage cm msg sender genId now = (cm, [])) := by
  constructor
  · intro h
    unfold routeMessage
    rw [h]
    rfl
  · intro h
    unfold handleWsMessage
    rw [h]
    rfl

/-- C1 counterexample: the chat `{type, content, priority}` with none of
the four base fields passes `validateMessageType`, so `routeMessage`
delivers it to the connected dashboard — not the zero deliveries the claim
asserts for a message missing base fields.  (The same envelope is dropped
one layer up by the WebSocket handler.) -/
theorem C1_counterexample_missing_base_fields_still_routed :
    isValidMessage chatNoBase = false ∧
    (routeMessage cmOneDash chatNoBase "v9" "g1" 1000).sent = [("d1", chatNoBase)] :=
  ⟨rfl, rfl⟩

/-- C1 witness: a chat lacking `content` is rejected by `routeMessage`
with no mutation and no delivery, and the base-field-less chat is dropped
by the WebSocket handler with no mutation and no delivery. -/
theorem C1_amended_rejection_totality_witness :
    validateMessageType chatMissingContent = false ∧
    routeMessage cmOneDash chatMissingContent "v9" "g1" 1000 = ⟨cmOneDash, [], none⟩ ∧
    isValidMessage chatNoBase = false ∧
    handleWsMessage cmOneDash chatNoBase "v9" "g1" 1000 = (cmOneDash, []) :=
  ⟨rfl,
   (C1_amended_rejection_totality cmOneDash chatMissingContent "v9" "g1" 1000).1 rfl,
   rfl,
   (C1_amended_rejection_totality cmOneDash chatNoBase "v9" "g1" 1000).2 rfl⟩

/-- C4 (amended): the model checks only the presence of kind-specific
fields, never their types, and wrong-typed values are not rejected: a chat
whose `content` field holds any value `v` passes validation, and
sanitization coerces that value to the string `String(v)` (angle brackets
stripped) rather than dropping the envelope. -/
theorem C4_amended_no_type_rejection (msg : JObject) (v : JValue)
    (htype : getField msg "type" = some (JValue.str "chat"))
    (hcontent : getField msg "content" = some v)
    (hprio : hasField msg "priority" = true) :
    validateMessageType msg = true ∧
    sanitizeMessage msg = setField msg "content" (JValue.str (stripAngles (jsToString v))) := by
  constructor
  · unfold validateMessageType
    rw [htype]
    have h1 : hasField msg "content" = true := by
      unfold hasField
      rw [hcontent]
      rfl
    rw [h1, hprio]
    rfl
  · have hchat : isChatType msg = true := by
      unfold isChatType
      rw [htype]
      rfl
    unfold sanitizeMessage
    rw [if_pos hchat]
    unfold jsField
    rw [hcontent]
    rfl

/-- C4 counterexample: the chat whose `content` is the number 42 — required
fields present, `content` of the wrong type — is not dropped: it passes
validation and `routeMessage` delivers it to the dashboard with the content
coerced to the string "42". -/
theorem C4_counterexample_wrong_type_coerced_and_delivered :
    validateMessageType chatNumContent = true ∧
    (routeMessage cmOneDash chatNumContent "v2" "g1" 5).sent =
      [("d1", setField chatNumContent "content" (JValue.str "42"))] :=
  ⟨rfl, rfl⟩

/-- C4 witness: applying the amended claim to the number-content chat. -/
theorem C4_amended_no_type_rejection_witness :
    validateMessageType chatNumContent = true ∧
    sanitizeMessage chatNumContent = setField chatNumContent "content" (JValue.str "42") :=
  C4_amended_no_type_rejection chatNumContent (JValue.num 42) rfl rfl rfl

/-- On a fresh server-originated payload (no `id`/`timestamp` keys),
`createMessage` appends the generated id and timestamp. -/
theorem createMessage_fresh (genId : String) (now : Int) (p : JObject)
    (hid : getField p "id" = none) (hts : getField p "timestamp" = none) :
    createMessage genId now p =
      setField (setField p "id" (JValue.str genId)) "timestamp" (JValue.num now) := by
  unfold createMessage
  rw [hid, hts]
  rfl

/-- C5: a well-formed `command` whose `targetComputer` matches no
registered device makes `routeMessage` synthesize exactly one
`command_response` — `success:false`, source `"server"`,
`originalCommandId` equal to the incoming envelope's `id` — attempt its
delivery to the originating connection and to it only (no other connection
receives anything; when the originator itself is unreachable, e.g. an HTTP
synthetic identity, the response is dropped as §6 documents), mutate
nothing, and raise nothing. -/
theorem C5_missing_target_error_response (cm : CM) (msg : JObject)
    (sender genId : String) (now : Int) (idv : JValue)
    (htype : getField msg "type" = some (JValue.str "command"))
    (htc : hasField msg "targetComputer" = true)
    (hfn : hasField msg "functionName" = true)
    (hpar : hasField msg "parameters" = true)
    (hid : getField msg "id" = some idv)
    (hmiss : getComputerByName cm (jsField msg "targetComputer") = none) :
    ∃ resp,
      routeMessage cm msg sender genId now =
        ⟨cm, if clientDeliverable cm sender then [(sender, resp)] else [], none⟩ ∧
      getField resp "type" = some (JValue.str "command_response") ∧
      getField resp "source" = some (JValue.str "server") ∧
      getField resp "success" = some (JValue.bool false) ∧
      getField resp "originalCommandId" = some idv := by
  have hval : validateMessageType msg = true := by
    unfold validateMessageType
    rw [htype, htc, hfn, hpar]
    rfl
  have hchat : isChatType msg = false := by
    unfold isChatType
    rw [htype]
    rfl
  have hsm : sanitizeMessage msg = msg := by
    unfold sanitizeMessage
    rw [hchat]
    rfl
  have hcr := createMessage_fresh genId now
    [("type", JValue.str "command_response"),
     ("source", JValue.str "server"),
     ("originalCommandId", jsField msg "id"),
     ("success", JValue.bool false),
     ("error", JValue.str
       ("Computer \x27" ++ jsToString (jsField msg "targetComputer") ++ "\x27 is not connected"))]
    rfl rfl
  refine ⟨createMessage genId now
      [("type", JValue.str "command_response"),
       ("source", JValue.str "server"),
       ("originalCommandId", jsField msg "id"),
       ("success", JValue.bool false),
       ("error", JValue.str
         ("Computer \x27" ++ jsToString (jsField msg "targetComputer") ++ "\x27 is not connected"))],
    ?_, ?_, ?_, ?_, ?_⟩
  · unfold routeMessage
    simp only [hval, Bool.not_true, Bool.false_eq_true, if_false, hsm, htype]
    show handleCommandMessage cm msg sender genId now = _
    unfold handleCommandMessage
    rw [hmiss]
    simp only [sendToClient_cm, sendToClient_sent]
  · rw [hcr, getField_setField_ne _ _ _ _ (by decide), getField_setField_ne _ _ _ _ (by decide)]
    rfl
  · rw [hcr, getField_setField_ne _ _ _ _ (by decide), getField_setField_ne _ _ _ _ (by decide)]
    rfl
  · rw [hcr, getField_setField_ne _ _ _ _ (by decide), getField_setField_ne _ _ _ _ (by decide)]
    rfl
  · rw [hcr, getField_setField_ne _ _ _ _ (by decide), getField_setField_ne _ _ _ _ (by decide)]
    show some (jsField msg "id") = some idv
    unfold jsField
    rw [hid]
    rfl

/-- C5 witness: routing the command aimed at the unregistered name
`"Nobody"` from the open dashboard `d1`. -/
theorem C5_missing_target_error_response_witness :
    ∃ resp,
      routeMessage cmOneDash cmdToMissing "d1" "g1" 50 =
        ⟨cmOneDash, if clientDeliverable cmOneDash "d1" then [("d1", resp)] else [], none⟩ ∧
      getField resp "type" = some (JValue.str "command_response") ∧
      getField resp "source" = some (JValue.str "server") ∧
      getField resp "success" = some (JValue.bool false) ∧
      getField resp "originalCommandId" = some (JValue.str "c5") :=
  C5_missing_target_error_response cmOneDash cmdToMissing "d1" "g1" 50
    (JValue.str "c5") rfl rfl rfl rfl rfl rfl

/-- C6 counterexample: `"Turtle1"` names a registered device, but its
socket is closed; routing the command from the dashboard `d1` delivers
nothing to the device — the sole delivery (the synthesized failure
response) goes to `d1`, a viewer connection, contradicting "delivers the
original envelope ... to that device's connection and only to it; zero
viewer connections receive anything". -/
theorem C6_counterexample_closed_device_sends_to_viewer :
    (getComputerByName cmDashTurtleClosed (JValue.str "Turtle1")).isSome = true ∧
    getClient cmDashTurtleClosed "d1" = some dash1 ∧
    dash1.type = ClientType.dashboard ∧
    ((routeMessage cmDashTurtleClosed cmdToTurtle "d1" "g1" 99).sent.map Prod.fst) = ["d1"] :=
  ⟨rfl, rfl, rfl, rfl⟩

/-- C6 (amended): a well-formed `command` whose `targetComputer` resolves
to a registered device with an open, working socket is forwarded verbatim —
the original envelope, no field changed — to that device's connection and
to it alone; no viewer receives anything and the registry is untouched.
When the forward fails, the code instead synthesizes a `command_response`
failure to the originating connection (which may be a viewer), as the
counterexample shows. -/
theorem C6_amended_targeted_forward (cm : CM) (msg : JObject)
    (sender genId : String) (now : Int) (dev : ConnectedClient)
    (htype : getField msg "type" = some (JValue.str "command"))
    (htc : hasField msg "targetComputer" = true)
    (hfn : hasField msg "functionName" = true)
    (hpar : hasField msg "parameters" = true)
    (hfound : getComputerByName cm (jsField msg "targetComputer") = some dev)
    (hdeliv : clientDeliverable cm dev.id = true) :
    routeMessage cm msg sender genId now = ⟨cm, [(dev.id, msg)], none⟩ := by
  have hval : validateMessageType msg = true := by
    unfold validateMessageType
    rw [htype, htc, hfn, hpar]
    rfl
  have hchat : isChatType msg = false := by
    unfold isChatType
    rw [htype]
    rfl
  have hsm : sanitizeMessage msg = msg := by
    unfold sanitizeMessage
    rw [hchat]
    rfl
  have hok : (sendToClient cm dev.id msg).ok = true := by
    rw [sendToClient_ok, hdeliv]
  unfold routeMessage
  simp only [hval, Bool.not_true, Bool.false_eq_true, if_false, hsm, htype]
  show handleCommandMessage cm msg sender genId now = _
  unfold handleCommandMessage
  rw [hfound]
  simp only [hok, if_true, sendToClient_cm, sendToClient_sent, hdeliv]

/-- C6 witness: the command aimed at `"Turtle1"` from dashboard `d1`, with
the device open, is delivered verbatim to `t1` only. -/
theorem C6_amended_targeted_forward_witness :
    routeMessage cmDashTurtleOpen cmdToTurtle "d1" "g1" 99 =
      ⟨cmDashTurtleOpen, [("t1", cmdToTurtle)], none⟩ :=
  C6_amended_targeted_forward cmDashTurtleOpen cmdToTurtle "d1" "g1" 99 turtleOpen
    rfl rfl rfl rfl rfl rfl

/-- C3 counterexample: an api_registration whose `functions` field is the
number 42 passes `validateMessageType` (presence-only), yet the dispatch
handler throws a `TypeError` evaluating `message.functions.map(...)` — an
exception escaping `routeMessage`, contradicting "no envelope that passes
the kind-specific validation can make the dispatch handlers throw". -/
theorem C3_counterexample_bad_functions_throws :
    validateMessageType regBadFunctions = true ∧
    (routeMessage ⟨[]⟩ regBadFunctions "t9" "g1" 3).error.isSome = true :=
  ⟨rfl, rfl⟩

/-- C3 (amended): `routeMessage` terminates normally with no uncaught
exception on every envelope except those passing the presence-only
validation with a wrong-typed payload at the two unguarded property
accesses: an `api_registration` whose present `functions` field is not an
array or is an array containing a null/undefined element
(`functionsFieldOk`), or a `status_update` whose present `status` field is
null or undefined (`statusFieldOk`).  Both connection-level callers wrap
`routeMessage` in try/catch, so even those exceptions never escape
envelope handling. -/
theorem C3_amended_no_throw (cm : CM) (msg : JObject) (sender genId : String)
    (now : Int)
    (hreg : functionsFieldOk msg = true)
    (hstat : statusFieldOk msg = true) :
    (routeMessage cm msg sender genId now).error = none := by
  by_cases hval : validateMessageType msg = true
  · unfold routeMessage
    simp only [hval, Bool.not_true, Bool.false_eq_true, if_false]
    split
    · rfl
    · unfold handleCommandMessage
      split
      · rfl
      · dsimp only
        split <;> rfl
    · rename_i heq
      have htype : getField msg "type" = some (JValue.str "api_registration") := by
        rw [← getField_sanitizeMessage_ne msg "type" (by decide)]
        exact heq
      have hfun : hasField msg "functions" = true := by
        unfold validateMessageType at hval
        rw [htype] at hval
        simp only [Bool.and_eq_true] at hval
        exact hval.2
      obtain ⟨v, hv⟩ : ∃ v, getField msg "functions" = some v := by
        unfold hasField at hfun
        exact Option.isSome_iff_exists.mp hfun
      unfold functionsFieldOk at hreg
      rw [htype, hv] at hreg
      have hsf : getField (sanitizeMessage msg) "functions" = getField msg "functions" :=
        getField_sanitizeMessage_ne msg "functions" (by decide)
      cases v with
      | arr fs =>
        have hclean : functionsMapNameThrows fs = false := by
          simpa using hreg
        rw [handleAPIRegistration_arr _ _ _ _ _ fs (by rw [hsf, hv]),
            if_neg (by simp [hclean])]
        rfl
      | str s => exact absurd hreg (by simp)
      | num n => exact absurd hreg (by simp)
      | bool b => exact absurd hreg (by simp)
      | null => exact absurd hreg (by simp)
      | undef => exact absurd hreg (by simp)
      | obj o => exact absurd hreg (by simp)
    · rename_i heq
      have htype : getField msg "type" = some (JValue.str "status_update") := by
        rw [← getField_sanitizeMessage_ne msg "type" (by decide)]
        exact heq
      have hst : hasField msg "status" = true := by
        unfold validateMessageType at hval
        rw [htype] at hval
        simp only [Bool.and_eq_true] at hval
        exact hval.2
      obtain ⟨v, hv⟩ : ∃ v, getField msg "status" = some v := by
        unfold hasField at hst
        exact Option.isSome_iff_exists.mp hst
      unfold statusFieldOk at hstat
      rw [htype, hv] at hstat
      have hsf : getField (sanitizeMessage msg) "status" = getField msg "status" :=
        getField_sanitizeMessage_ne msg "status" (by decide)
      unfold handleStatusUpdate
      rw [hsf, hv]
      cases v with
      | null => exact absurd hstat (by simp)
      | undef => exact absurd hstat (by simp)
      | str s => rfl
      | num n => rfl
      | bool b => rfl
      | obj o => rfl
      | arr a => rfl
    · rfl
    · rfl
  · have hval' : validateMessageType msg = false := by
      revert hval
      cases validateMessageType msg <;> simp
    unfold routeMessage
    rw [hval']
    rfl

/-- C3 witness: a well-typed registration, a well-typed status update, a
malformed frame and a command all route without an escaping exception;
the boundary is tight — the guard excludes the JSON-reachable
`functions = [null]`, on which the program does throw. -/
theorem C3_amended_no_throw_witness :
    functionsFieldOk regGood = true ∧ statusFieldOk statusMsg = true ∧
    (routeMessage cmOneDash regGood "t9" "g1" 3).error = none ∧
    (routeMessage cmOneDash statusMsg "t9" "g1" 3).error = none ∧
    (routeMessage cmOneDash chatMissingContent "t9" "g1" 3).error = none ∧
    (routeMessage cmDashTurtleOpen cmdToTurtle "d1" "g1" 3).error = none ∧
    functionsFieldOk regNullFunctions = false ∧
    (routeMessage cmOneDash regNullFunctions "t9" "g1" 3).error.isSome = true :=
  ⟨rfl, rfl,
   C3_amended_no_throw cmOneDash regGood "t9" "g1" 3 rfl rfl,
   C3_amended_no_throw cmOneDash statusMsg "t9" "g1" 3 rfl rfl,
   C3_amended_no_throw cmOneDash chatMissingContent "t9" "g1" 3 rfl rfl,
   C3_amended_no_throw cmDashTurtleOpen cmdToTurtle "d1" "g1" 3 rfl rfl,
   rfl, rfl⟩

theorem applyUpdate_id (c : ConnectedClient) (u : ClientUpdate) :
    (applyUpdate c u).id = c.id := rfl

theorem updateClient_twice (cm : CM) (cid : String) (u1 u2 : ClientUpdate) :
    updateClient (updateClient cm cid u1) cid u2 =
      ⟨cm.clients.map (fun d =>
        if d.id == cid then applyUpdate (applyUpdate d u1) u2 else d)⟩ := by
  unfold updateClient
  congr 1
  rw [List.map_map]
  apply List.map_congr_left
  intro d _
  by_cases h : (d.id == cid) = true
  · simp only [Function.comp_apply, if_pos h]
    rw [applyUpdate_id, if_pos h]
  · simp only [Function.comp_apply, if_neg h]

theorem find?_map_update {l : List ConnectedClient} {cid : String} {c : ConnectedClient}
    {f : ConnectedClient → ConnectedClient} {q : ConnectedClient → Bool}
    (hfind : l.find? (fun d => d.id == cid) = some c)
    (hother : ∀ d ∈ l, (d.id == cid) = false → q d = false)
    (hqc : q (f c) = true) :
    (l.map (fun d => if d.id == cid then f d else d)).find? q = some (f c) := by
  induction l with
  | nil => simp at hfind
  | cons d rest ih =>
    by_cases hd : (d.id == cid) = true
    · have hdc : d = c := by
        simp only [List.find?_cons, hd] at hfind
        exact Option.some.inj hfind
      subst hdc
      simp only [List.map_cons, if_pos hd]
      exact List.find?_cons_of_pos _ hqc
    · have hd' : (d.id == cid) = false := by
        revert hd
        cases d.id == cid <;> simp
      simp only [List.find?_cons, hd'] at hfind
      have hdq : q d = false := hother d (List.mem_cons_self d rest) hd'
      simp only [List.map_cons, if_neg hd]
      rw [List.find?_cons_of_neg _ (by simp [hdq])]
      exact ih hfind (fun x hx hxne => hother x (List.mem_cons_of_mem d hx) hxne)

/-- C2 (amended): `routeMessage` itself does not promote the sender's role
— the WebSocket message handler does, just before routing.  After the full
message handling of a well-formed `api_registration` from connection `cid`
(the handler's promotion followed by `routeMessage`'s metadata update),
`getComputerByName` applied to the envelope's `computerName` locates
connection `cid` with the envelope's function list attached as
`registeredFunctions` — provided no other record already carries that
device name (first-match shadowing, the documented ambiguity of §3/§9) and
the function list has no null/undefined entry (on such an entry the log
line `message.functions.map(f => f.name)` throws before the metadata is
attached, so the sender stays promoted but nameless and unfindable). -/
theorem C2_amended_registration_findable (cm : CM) (msg : JObject)
    (cid genId : String) (now : Int) (c : ConnectedClient) (nm : String)
    (fs : List JValue)
    (hc : getClient cm cid = some c)
    (hvalid : isValidMessage msg = true)
    (htype : getField msg "type" = some (JValue.str "api_registration"))
    (hname : getField msg "computerName" = some (JValue.str nm))
    (hctype : hasField msg "computerType" = true)
    (hfs : getField msg "functions" = some (JValue.arr fs))
    (hclean : functionsMapNameThrows fs = false)
    (hshadow : otherDeviceNamed cm cid (JValue.str nm) = false) :
    ∃ c',
      getComputerByName ⟨(handleWsMessage cm msg cid genId now).1.clients⟩ (JValue.str nm) =
        some c' ∧
      c'.id = cid ∧ c'.registeredFunctions = some (JValue.arr fs) := by
  have hcid : c.id = cid := by
    have := List.find?_some hc
    simpa using this
  have hval : validateMessageType msg = true := by
    unfold validateMessageType
    rw [htype]
    have h1 : hasField msg "computerName" = true := by
      unfold hasField
      rw [hname]
      rfl
    have h2 : hasField msg "functions" = true := by
      unfold hasField
      rw [hfs]
      rfl
    rw [h1, hctype, h2]
    rfl
  have hchat : isChatType msg = false := by
    unfold isChatType
    rw [htype]
    rfl
  have hsm : sanitizeMessage msg = msg := by
    unfold sanitizeMessage
    rw [hchat]
    rfl
  have hcond : ((getClient cm cid).isSome &&
      (match getField msg "type" with
       | some (JValue.str "api_registration") => true
       | _ => false)) = true := by
    rw [hc, htype]
    rfl
  have hw : (handleWsMessage cm msg cid genId now).1 =
      updateClient (updateClient cm cid ⟨some ClientType.computercraft, none, none, none⟩)
        cid ⟨none, some (jsField msg "computerName"), some (jsField msg "computerType"),
             some (JValue.arr fs)⟩ := by
    unfold handleWsMessage
    simp only [hvalid, Bool.not_true, Bool.false_eq_true, if_false]
    rw [if_pos hcond]
    unfold routeMessage
    simp only [hval, Bool.not_true, Bool.false_eq_true, if_false, hsm, htype]
    show (handleAPIRegistration _ msg cid genId now).cm = _
    rw [handleAPIRegistration_arr _ _ _ _ _ fs hfs, if_neg (by simp [hclean])]
    unfold registrationEffects
    simp only [sendToClient_cm, broadcastToType_cm]
  rw [hw, updateClient_twice]
  unfold getComputerByName
  have hnm : jsField msg "computerName" = JValue.str nm := by
    unfold jsField
    rw [hname]
    rfl
  refine ⟨_, find?_map_update hc ?_ ?_, ?_, ?_⟩
  · intro d hd hne
    unfold otherDeviceNamed at hshadow
    rw [List.any_eq_false] at hshadow
    have h2 := hshadow d hd
    simp only [hne, Bool.not_false, Bool.true_and] at h2
    revert h2
    cases hq : (d.type == ClientType.computercraft &&
      (match d.computerName with
       | some v => jsStrictEq v (JValue.str nm)
       | none => false)) <;> simp
  · show (ClientType.computercraft == ClientType.computercraft &&
      (match some (jsField msg "computerName") with
       | some v => jsStrictEq v (JValue.str nm)
       | none => false)) = true
    rw [hnm]
    simp [jsStrictEq]
  · exact hcid
  · rfl

/-- C2 counterexample: `routeMessage` alone does not satisfy the claim —
routing the well-formed registration `regGood` from the dashboard-typed
connection `d1` attaches the metadata but never promotes the record's role
to `computercraft` (the WebSocket handler does that, outside
`routeMessage`), so `getComputerByName` still cannot locate the device
after `routeMessage` returns. -/
theorem C2_counterexample_route_alone_no_promotion :
    getClient cmOneDash "d1" = some dash1 ∧
    dash1.type = ClientType.dashboard ∧
    getComputerByName (routeMessage cmOneDash regGood "d1" "g1" 2).cm
      (JValue.str "Turtle9") = none :=
  ⟨rfl, rfl, rfl⟩

/-- C2 witness: the WebSocket handling of `regGood` from `d1` makes
`getComputerByName "Turtle9"` find connection `d1` with the registered
function list. -/
theorem C2_amended_registration_findable_witness :
    ∃ c',
      getComputerByName ⟨(handleWsMessage cmOneDash regGood "d1" "g1" 2).1.clients⟩
        (JValue.str "Turtle9") = some c' ∧
      c'.id = "d1" ∧
      c'.registeredFunctions = some (JValue.arr [JValue.obj [("name", JValue.str "dig")]]) :=
  C2_amended_registration_findable cmOneDash regGood "d1" "g1" 2 dash1 "Turtle9"
    [JValue.obj [("name", JValue.str "dig")]] rfl rfl rfl rfl rfl rfl rfl rfl
